import Mathlib

/-!
Verification development for the gdal-server repository: a shallow embedding
of the HTTP request-processing pipeline of `src/server.js` (its first
revision, lines 1-613, which the claims cite) and of the alternative
revision `src/unnamed/part_000` (lines 1-267), together with theorems
settling the frozen behavioural claims.

Modelling conventions:
* The external GDAL toolkit is opaque.  A `World` carries the oracles the
  code consults: what `gdal.openAsync` returns for a given path string,
  whether a coordinate-transformation constructor succeeds for a given
  source spatial reference, what transforming one geometry yields (with
  `none` modelling a thrown per-feature transform error), and the
  `gdal.wkbGeometryType` name table.
* JavaScript falsy-default idioms (`x || d`, `if (!x)`) are modelled by
  explicit helpers (`jsOrStr`, `jsTruthyStr`, `jsNumOrNull`).
* Thrown JS errors become `Except` error values carrying the same message
  text the code builds; a caught-and-logged error that the code recovers
  from locally is modelled by the recovery value.
* File-system effects are reduced to the facts the claims are about:
  whether the uploaded scratch file still exists after the response is
  produced (`Outcome.fileRemains`) and which paths were handed to
  `gdal.open`/`gdal.openAsync` (`Outcome.opens`, `ResolveOut.attempted`).
-/

namespace GdalServer

/-- JS `a || d` for an optional string: `undefined` and `''` are falsy. -/
def jsOrStr (o : Option String) (d : String) : String :=
  match o with
  | none => d
  | some s => if s = "" then d else s

/-- JS truthiness of an optional string (`undefined` and `''` are falsy). -/
def jsTruthyStr (o : Option String) : Bool :=
  match o with
  | none => false
  | some s => !(s = "")

/-- JS `x || null` for an optional number field: `undefined` and `0` give `null`. -/
def jsNumOrNull (o : Option Int) : Option Int :=
  match o with
  | none => none
  | some x => if x = 0 then none else some x

/-- Character-list suffix test; a kernel-reducible `endsWith`. -/
def charsEndWith (s suffix : List Char) : Bool :=
  suffix == s.drop (s.length - suffix.length)

/-- JS `s.endsWith(suffix)` on strings, via the character lists. -/
def strEndsWith (s suffix : String) : Bool :=
  charsEndWith s.data suffix.data

/-- JS `s.toLowerCase()` (ASCII range, as the names involved are ASCII). -/
def strToLower (s : String) : String :=
  ⟨s.data.map Char.toLower⟩

/-- JS `s.toUpperCase()` (ASCII range). -/
def strToUpper (s : String) : String :=
  ⟨s.data.map Char.toUpper⟩

/-- Drop the last `n` characters of a string. -/
def strDropRight (s : String) (n : Nat) : String :=
  ⟨s.data.take (s.data.length - n)⟩

/-- The part of a string after the last occurrence of `sep` (the whole
string when `sep` does not occur). -/
def lastSegmentAfter (sep : Char) (s : String) : String :=
  ⟨s.data.foldl (fun acc c => if c = sep then [] else acc ++ [c]) []⟩

/-- Spatial reference object; `wkt` models what `toWKT()` returns. -/
structure SRS where
  wkt : String
deriving Repr, DecidableEq

/-- GDAL driver object with its `description`. -/
structure Driver where
  description : String
deriving Repr, DecidableEq

/-- Raster dimensions, `dataset.rasterSize`. -/
structure RasterSize where
  x : Int
  y : Int
deriving Repr, DecidableEq

/-- Opaque geometry value; `gid` only serves to tell geometries apart.  The
`JSON.parse(geometry.toJSON())` step of the code is modelled as the identity
on this opaque value. -/
structure Geometry where
  gid : Nat
deriving Repr, DecidableEq

/-- One field definition as read through `layer.fields.get(name)`.
`ftypeName` models the `gdal.fieldType[field.type]` lookup (`none` when the
table has no entry); `getFails` models `fields.get(name)` throwing, which the
code catches and skips. -/
structure FieldDefn where
  fname : String
  ftypeName : Option String
  width : Option Int
  precision : Option Int
  getFails : Bool
deriving Repr, DecidableEq

/-- One feature of a layer.  `procFails` models the body of the per-feature
`try` block throwing (the code logs and skips the feature); `propVal n`
models `feature.fields.get(n)`, with `none` rendered as `null`. -/
structure Feature where
  fid : Int
  geometry : Option Geometry
  procFails : Bool
  propVal : String → Option String

/-- One vector layer of an opened dataset. -/
structure Layer where
  lname : String
  geomType : Option Nat
  srs : Option SRS
  features : List Feature
  fields : Option (List FieldDefn)

/-- An opened dataset as the handlers read it.  `layers = none` models the
absence of a usable `layers` collection (`result.layers && typeof
result.layers.count === 'function'` failing). -/
structure Dataset where
  driver : Option Driver
  description : Option String
  rasterSize : Option RasterSize
  srs : Option SRS
  layers : Option (List Layer)

/-- The oracles for the opaque GDAL toolkit. -/
structure World where
  openResult : String → Except String Dataset
  setupOk : SRS → Bool
  transformGeom : Geometry → Option Geometry
  wkbGeometryType : Nat → Option String

/-- A JSON value, used for response bodies whose exact key set a claim is
about. -/
inductive JVal where
  | jnull : JVal
  | jstr : String → JVal
  | jnum : Int → JVal
  | jbool : Bool → JVal
  | jobj : List (String × JVal) → JVal
  | jarr : List JVal → JVal

/-- Keys of a JSON object (empty for non-objects). -/
def jKeys : JVal → List String
  | .jobj fields => fields.map Prod.fst
  | _ => []

/-- Value at a key of a JSON object. -/
def jLookup (j : JVal) (key : String) : Option JVal :=
  match j with
  | .jobj fields => fields.lookup key
  | _ => none

/-- The object literal built by `getFileInfo` in src/server.js lines 126-135:
driver description, raster size, layer count, projection WKT, with the
falsy-default sentinels of the code, and a constant `null` extent. -/
def fileInfoJson (ds : Dataset) : JVal :=
  .jobj
    [ ("driver", .jstr (jsOrStr (ds.driver.map Driver.description) "Unknown")),
      ("size", .jobj
        [ ("width", .jnum ((ds.rasterSize.map RasterSize.x).getD 0)),
          ("height", .jnum ((ds.rasterSize.map RasterSize.y).getD 0)) ]),
      ("layers", .jnum (Int.ofNat ((ds.layers.map List.length).getD 0))),
      ("projection", .jstr (jsOrStr (ds.srs.map SRS.wkt) "Unknown")),
      ("extent", .jnull) ]

/-- `getFileInfo` of src/server.js lines 117-138: open the path, then shape
the info object; an open failure propagates unwrapped. -/
def getFileInfo (w : World) (p : String) : Except String JVal :=
  match w.openResult p with
  | .error msg => .error msg
  | .ok ds => .ok (fileInfoJson ds)

/-- Coarse result of `getDetailedInfo` (src/server.js lines 141-334); no
claim inspects its contents beyond the fact that the handler ran, so only
the per-dataset summary shape is kept. -/
structure DetailedOut where
  driver : String
  layer_count : Nat
  layersLen : Nat
  errNote : Option String
deriving Repr, DecidableEq

/-- `getDetailedInfo` of src/server.js lines 141-334: open (failure wrapped
with `Failed to get detailed info: `), then either walk `layers` or return
the unsupported-structure note with a 200. -/
def getDetailedInfo (w : World) (p : String) : Except String DetailedOut :=
  match w.openResult p with
  | .error msg => .error ("Failed to get detailed info: " ++ msg)
  | .ok ds =>
    match ds.layers with
    | none =>
      .ok { driver := jsOrStr (ds.driver.map Driver.description) "Unknown",
            layer_count := 0, layersLen := 0,
            errNote := some "Could not access layers - unsupported dataset structure" }
    | some ls =>
      .ok { driver := jsOrStr (ds.driver.map Driver.description) "Unknown",
            layer_count := ls.length, layersLen := ls.length, errNote := none }

/-- One entry of the `list-layers` response. -/
structure ListLayerOut where
  index : Nat
  name : String
  geometry_type : String
  feature_count : Nat
deriving Repr, DecidableEq

/-- The `list-layers` response shape. -/
structure ListOut where
  driver : String
  layer_count : Nat
  layers : List ListLayerOut
deriving Repr, DecidableEq

/-- Geometry-type tag as `listAllLayers` renders it (src/server.js lines
354-357): truthy `geomType` looks up the name table with a `Type_` fallback,
otherwise `Unknown`. -/
def listGeomTypeName (w : World) (g : Option Nat) : String :=
  match g with
  | none => "Unknown"
  | some n =>
    if n = 0 then "Unknown"
    else jsOrStr (w.wkbGeometryType n) ("Type_" ++ toString n)

/-- `listAllLayers` of src/server.js lines 337-390: open (failure wrapped
with `Failed to list layers: `), then one entry per layer in index order. -/
def listAllLayers (w : World) (p : String) : Except String ListOut :=
  match w.openResult p with
  | .error msg => .error ("Failed to list layers: " ++ msg)
  | .ok ds =>
    let entries :=
      match ds.layers with
      | none => []
      | some ls =>
        (List.range ls.length).map (fun i =>
          let l := (ls.get? i).getD
            { lname := "", geomType := none, srs := none, features := [], fields := none }
          { index := i,
            name := if l.lname = "" then "Layer_" ++ toString i else l.lname,
            geometry_type := listGeomTypeName w l.geomType,
            feature_count := l.features.length })
    .ok { driver := jsOrStr (ds.driver.map Driver.description) "Unknown",
          layer_count := (ds.layers.map List.length).getD 0,
          layers := entries }

/-- The `convert` response: format echo plus whether the payload was parsed
as JSON (`GeoJSON` output) or returned as raw text. -/
structure ConvertOut where
  format : String
  isJson : Bool
deriving Repr, DecidableEq

/-- `convertFile` of src/server.js lines 544-609: open the input first, then
switch on the uppercased format (unsupported formats throw), then copy every
layer (which dereferences `dataset.layers`).  Output-driver creation, the
feature copy and the read-back of the produced file are modelled as
succeeding; the copy itself is not inspected by any claim. -/
def convertFile (w : World) (p fmt : String) : Except String ConvertOut :=
  match w.openResult p with
  | .error msg => .error msg
  | .ok ds =>
    let up := strToUpper fmt
    if up = "GEOJSON" ∨ up = "SHAPEFILE" ∨ up = "KML" then
      match ds.layers with
      | none => .error "Cannot read properties of undefined"
      | some _ => .ok { format := fmt, isJson := up = "GEOJSON" }
    else
      .error ("Unsupported format: " ++ fmt)

/-- Errors thrown inside `extractLayerFeatures` before the feature loop,
kept structured so that the names enumerated in the layer-not-found message
stay inspectable; `message` renders the exact strings the code throws. -/
inductive ExtractErr where
  | openFail : String → ExtractErr
  | noLayers : ExtractErr
  | layerNotFound : String → List String → ExtractErr
deriving Repr, DecidableEq

/-- Message text of an extraction error, exactly as src/server.js builds it
(lines 400, 415 and the propagated open error). -/
def ExtractErr.message : ExtractErr → String
  | .openFail msg => msg
  | .noLayers => "No layers found in dataset"
  | .layerNotFound requested available =>
    "Layer \"" ++ requested ++ "\" not found. Available layers: " ++
      String.intercalate ", " available

/-- The available-layer-name list of the not-found message: the code builds
it as `Array.from` over indices `0..layerCount-1`, reading each name. -/
def availableNames (ls : List Layer) : List String :=
  (List.range ls.length).map (fun i => ((ls.get? i).map Layer.lname).getD "")

/-- One field entry of the extract-layer response (src/server.js 453-459). -/
structure FieldOut where
  name : String
  ftype : String
  width : Option Int
  precision : Option Int
deriving Repr, DecidableEq

/-- One feature entry of the extract-layer response (src/server.js 478-511). -/
structure FeatureOut where
  fid : Int
  geometry : Option Geometry
  properties : List (String × Option String)
deriving Repr, DecidableEq

/-- The `extraction_summary` object (src/server.js 530-535). -/
structure ExtractSummary where
  total_extracted : Nat
  coordinate_transformation_applied : Bool
  max_feature_limit : Nat
  truncated : Bool
deriving Repr, DecidableEq

/-- The extract-layer response (src/server.js 435-446 and 526-535).
`geometry_type` is `Option String` because the code writes
`gdal.wkbGeometryType[geomType]` without a fallback, which can be
`undefined`. -/
structure ExtractResult where
  name : String
  feature_count : Nat
  geometry_type : Option String
  sr_original : String
  sr_transformed : Option String
  coordinate_transformation_applied : Bool
  fields : List FieldOut
  features : List FeatureOut
  extraction_summary : ExtractSummary
deriving Repr, DecidableEq

/-- Whether a non-null `coordTransform` exists for the feature loop
(src/server.js 420-432): requested, layer has an SRS, and the
`CoordinateTransformation` constructor did not throw. -/
def ctOf (w : World) (transformCoords : Bool) (L : Layer) : Bool :=
  match L.srs with
  | some s => transformCoords && w.setupOk s
  | none => false

/-- Field-name list the feature loop reads per feature
(`targetLayer.fields?.getNames() || []`, src/server.js 504). -/
def layerFieldNames (L : Layer) : List String :=
  match L.fields with
  | some fds => fds.map FieldDefn.fname
  | none => []

/-- One emitted feature record (src/server.js 478-511): null geometry stays
null; with an active transform the clone is transformed, and a per-feature
transform error falls back to the original geometry; properties are read per
field name with failures rendered as null. -/
def mkFeatureOut (w : World) (ct : Bool) (fieldNames : List String)
    (f : Feature) : FeatureOut :=
  { fid := f.fid,
    geometry :=
      match f.geometry with
      | none => none
      | some g =>
        if ct then
          match w.transformGeom g with
          | some tg => some tg
          | none => some g
        else some g,
    properties := fieldNames.map (fun n => (n, f.propVal n)) }

/-- The feature loop of src/server.js 471-524: iterate every feature; once
`featureCount` has reached 10000 the remaining callbacks return early; a
feature whose processing throws is logged and skipped; otherwise the record
is pushed and the count incremented.  Returns the final count and the pushed
records in order. -/
def extractLoop (w : World) (ct : Bool) (fieldNames : List String) :
    List Feature → Nat → Nat × List FeatureOut
  | [], c => (c, [])
  | f :: fs, c =>
    if 10000 ≤ c then extractLoop w ct fieldNames fs c
    else if f.procFails then extractLoop w ct fieldNames fs c
    else
      let out := mkFeatureOut w ct fieldNames f
      let rest := extractLoop w ct fieldNames fs (c + 1)
      (rest.1, out :: rest.2)

/-- Geometry-type tag of the extract-layer response (src/server.js 438):
`targetLayer.geomType ? gdal.wkbGeometryType[targetLayer.geomType] :
'Unknown'`, with no fallback on the table lookup. -/
def extractGeomTypeName (w : World) (g : Option Nat) : Option String :=
  match g with
  | none => some "Unknown"
  | some n => if n = 0 then some "Unknown" else w.wkbGeometryType n

/-- Field-definition list of the extract-layer response (src/server.js
448-464): iterate the field names, skip the ones whose `get` throws, apply
the falsy-default renderings. -/
def extractFieldsOut (L : Layer) : List FieldOut :=
  match L.fields with
  | none => []
  | some fds =>
    (fds.filter (fun fd => !fd.getFails)).map (fun fd =>
      { name := fd.fname,
        ftype := jsOrStr fd.ftypeName "Unknown",
        width := jsNumOrNull fd.width,
        precision := jsNumOrNull fd.precision })

/-- `extractLayerFeatures` of src/server.js 393-543: open the path, require
a usable layer collection, locate the layer by exact name (first index-order
match), set up the single per-call coordinate transformation, emit the field
list and the capped feature list, then overwrite `feature_count` with the
extracted count and attach the summary.  The outer catch that prepends
`Failed to extract layer: ` to thrown messages is applied where the
dispatcher consumes the error. -/
def extractLayerFeatures (w : World) (gdalPath layerName : String)
    (transformCoords : Bool) : Except ExtractErr ExtractResult :=
  match w.openResult gdalPath with
  | .error msg => .error (.openFail msg)
  | .ok ds =>
    match ds.layers with
    | none => .error .noLayers
    | some ls =>
      match ls.find? (fun l => l.lname == layerName) with
      | none => .error (.layerNotFound layerName (availableNames ls))
      | some L =>
        let ct := ctOf w transformCoords L
        let loopOut := extractLoop w ct (layerFieldNames L) L.features 0
        .ok
          { name := layerName,
            feature_count := loopOut.1,
            geometry_type := extractGeomTypeName w L.geomType,
            sr_original :=
              match L.srs with
              | some s => s.wkt
              | none => "Unknown",
            sr_transformed :=
              if transformCoords then some "EPSG:4326 (WGS84)" else none,
            coordinate_transformation_applied := ct,
            fields := extractFieldsOut L,
            features := loopOut.2,
            extraction_summary :=
              { total_extracted := loopOut.1,
                coordinate_transformation_applied := ct,
                max_feature_limit := 10000,
                truncated := decide (10000 ≤ loopOut.1) } }

/-- The uploaded file as multer hands it to the route handler. -/
structure UploadFile where
  path : String
  originalname : String
deriving Repr, DecidableEq

/-- The multipart form fields the handlers read.  `transformCoordinates` is
carried so that requests using the field name the spec documents can be
expressed; the code never reads it. -/
structure Body where
  operation : Option String
  format : Option String
  layerName : Option String
  transformCoords : Option String
  transformCoordinates : Option String
deriving Repr, DecidableEq

/-- A POST /process-geospatial request after upload decoding. -/
structure Request where
  file : Option UploadFile
  body : Body
deriving Repr, DecidableEq

/-- Which operation handler the dispatcher invoked. -/
inductive HandlerTag where
  | info | detailedInfo | listLayers | convert | extractLayer
deriving Repr, DecidableEq

/-- The result payload of a 200 response, per handler. -/
inductive ResultVal where
  | infoR : JVal → ResultVal
  | detailedR : DetailedOut → ResultVal
  | listR : ListOut → ResultVal
  | convertR : ConvertOut → ResultVal
  | extractR : ExtractResult → ResultVal
  | infoBR : String → Nat → ResultVal
  | detailedBR : String → Nat → ResultVal
  | extractBR : String → Nat → ResultVal

/-- Observable outcome of one request: HTTP status, which handler ran,
which paths were handed to the toolkit open call, whether the uploaded
scratch file still exists after the response, and the response payload
(`errorField`/`details` for error bodies, `result` for 200 bodies). -/
structure Outcome where
  status : Nat
  invoked : Option HandlerTag
  opens : List String
  fileRemains : Bool
  errorField : Option String
  details : Option String
  result : Option ResultVal

/-- The GDAL path the dispatcher builds (src/server.js 56-62): the scratch
path, prefixed with `/vsizip/` when the lowercased original name ends in
`.zip`. -/
def gdalPathOf (f : UploadFile) : String :=
  if strEndsWith (strToLower f.originalname) ".zip" then "/vsizip/" ++ f.path
  else f.path

/-- Wrap a handler result into the response: 200 with the payload and the
scratch file unlinked, or the catch block's 500 with `Processing failed`
plus the thrown message, the scratch file unlinked there too (src/server.js
92-113).  Every handler attempts `openAsync` on the GDAL path first, so the
open attempt is recorded unconditionally. -/
def finishRun (tag : HandlerTag) (gdalPath : String) :
    Except String ResultVal → Outcome
  | .ok r =>
    { status := 200, invoked := some tag, opens := [gdalPath],
      fileRemains := false, errorField := none, details := none,
      result := some r }
  | .error msg =>
    { status := 500, invoked := some tag, opens := [gdalPath],
      fileRemains := false, errorField := some "Processing failed",
      details := some msg, result := none }

/-- The POST /process-geospatial route handler of src/server.js 48-114:
missing file check, `operation` defaulting to `info`, the `/vsizip/` path
rule, the switch over operations (with the `default` branch running
`getFileInfo`), the extract-layer `layerName` precondition whose early 400
return skips the unlink, and the success/catch cleanup. -/
def processGeospatial (w : World) (req : Request) : Outcome :=
  match req.file with
  | none =>
    { status := 400, invoked := none, opens := [], fileRemains := false,
      errorField := some "No file uploaded", details := none, result := none }
  | some f =>
    let operation := jsOrStr req.body.operation "info"
    let gdalPath := gdalPathOf f
    if operation = "detailed-info" then
      finishRun .detailedInfo gdalPath
        ((getDetailedInfo w gdalPath).map ResultVal.detailedR)
    else if operation = "list-layers" then
      finishRun .listLayers gdalPath
        ((listAllLayers w gdalPath).map ResultVal.listR)
    else if operation = "convert" then
      finishRun .convert gdalPath
        ((convertFile w gdalPath (jsOrStr req.body.format "GeoJSON")).map
          ResultVal.convertR)
    else if operation = "extract-layer" then
      if !(jsTruthyStr req.body.layerName) then
        { status := 400, invoked := none, opens := [], fileRemains := true,
          errorField := some "Layer name is required for extraction",
          details := none, result := none }
      else
        finishRun .extractLayer gdalPath
          ((extractLayerFeatures w gdalPath ((req.body.layerName).getD "")
              (!(req.body.transformCoords == some "false"))).map
            ResultVal.extractR
          |>.mapError (fun e => "Failed to extract layer: " ++ e.message))
    else
      finishRun .info gdalPath ((getFileInfo w gdalPath).map ResultVal.infoR)

/-- Whether `gdal.open(p)` succeeds in the probing code of
src/unnamed/part_000. -/
def opensOk (w : World) (p : String) : Bool :=
  (w.openResult p).isOk

/-- Node `path.basename(originalName, '.zip')`: the part after the last
slash, with a trailing `.zip` removed when it matches exactly and is not
the whole name. -/
def basenameNoZip (originalName : String) : String :=
  let b := lastSegmentAfter '/' originalName
  if b ≠ ".zip" ∧ strEndsWith b ".zip" then strDropRight b 4 else b

/-- Result of the archive path resolver: the chosen path, every path handed
to `gdal.open` in order, and every successfully opened dataset that was
closed again. -/
structure ResolveOut where
  path : String
  attempted : List String
  closed : List String
deriving Repr, DecidableEq

/-- The candidate paths `formatGDALPath` of src/unnamed/part_000 lines
30-106 probes, in order: the `/vsizip/` root; the root joined with the
archive base name verbatim; the base name with `.GDB` appended unless it
already ends case-insensitively in `.gdb`; the whole base name lowercased
with `.gdb` appended if missing. -/
def codeCandidates (filePath originalName : String) : List String :=
  let zipPath := "/vsizip/" ++ filePath
  let baseNameOriginal := basenameNoZip originalName
  let baseNameUpper :=
    if strEndsWith (strToUpper baseNameOriginal) ".GDB" then baseNameOriginal
    else baseNameOriginal ++ ".GDB"
  let lowerBase := strToLower baseNameOriginal
  let baseNameLower :=
    if strEndsWith lowerBase ".gdb" then lowerBase else lowerBase ++ ".gdb"
  [ zipPath,
    zipPath ++ "/" ++ baseNameOriginal,
    zipPath ++ "/" ++ baseNameUpper,
    zipPath ++ "/" ++ baseNameLower ]

/-- Ordered-fallback probing: try each candidate with `gdal.open`, return
the first that opens (closing the probe dataset), else the fallback. -/
def probeFirst (w : World) (fallback : String) : List String → ResolveOut
  | [] => { path := fallback, attempted := [], closed := [] }
  | c :: rest =>
    if opensOk w c then { path := c, attempted := [c], closed := [c] }
    else
      let r := probeFirst w fallback rest
      { path := r.path, attempted := c :: r.attempted, closed := r.closed }

/-- `formatGDALPath` of src/unnamed/part_000 lines 30-106, with its probe
attempts and closes instrumented: non-zip names pass through; zip names go
through the four probes, each successful open closed immediately, first
success returned; if all four fail the method-2 path (root plus base name)
is returned. -/
def formatGDALPath (w : World) (filePath originalName : String) : ResolveOut :=
  if strEndsWith (strToLower originalName) ".zip" then
    let zipPath := "/vsizip/" ++ filePath
    let baseNameOriginal := basenameNoZip originalName
    let originalCasePath := zipPath ++ "/" ++ baseNameOriginal
    let baseNameUpper :=
      if strEndsWith (strToUpper baseNameOriginal) ".GDB" then baseNameOriginal
      else baseNameOriginal ++ ".GDB"
    let upperCasePath := zipPath ++ "/" ++ baseNameUpper
    let lowerBase := strToLower baseNameOriginal
    let baseNameLower :=
      if strEndsWith lowerBase ".gdb" then lowerBase else lowerBase ++ ".gdb"
    let lowerCasePath := zipPath ++ "/" ++ baseNameLower
    if opensOk w zipPath then
      { path := zipPath, attempted := [zipPath], closed := [zipPath] }
    else if opensOk w originalCasePath then
      { path := originalCasePath, attempted := [zipPath, originalCasePath],
        closed := [originalCasePath] }
    else if opensOk w upperCasePath then
      { path := upperCasePath,
        attempted := [zipPath, originalCasePath, upperCasePath],
        closed := [upperCasePath] }
    else if opensOk w lowerCasePath then
      { path := lowerCasePath,
        attempted := [zipPath, originalCasePath, upperCasePath, lowerCasePath],
        closed := [lowerCasePath] }
    else
      { path := originalCasePath,
        attempted := [zipPath, originalCasePath, upperCasePath, lowerCasePath],
        closed := [] }
  else
    { path := filePath, attempted := [], closed := [] }

/-- Modelled from the spec: the probe-candidate order claim C9 describes for
the path resolver — the virtual-archive root, the root joined with the base
name verbatim, then the base name with its extension (the part after the
last dot) forced to uppercase, then forced to lowercase.  This definition
follows the words of spec section 4.2 and of the claim, to be compared with
`codeCandidates`, which is translated from src/unnamed/part_000. -/
def specCandidates (filePath originalName : String) : List String :=
  let zipPath := "/vsizip/" ++ filePath
  let base := basenameNoZip originalName
  let forceExt := fun (tr : Char → Char) =>
    if base.data.contains '.' then
      let ext := (lastSegmentAfter '.' base).data
      String.mk (base.data.take (base.data.length - ext.length - 1) ++
        '.' :: ext.map tr)
    else base
  [ zipPath,
    zipPath ++ "/" ++ base,
    zipPath ++ "/" ++ forceExt Char.toUpper,
    zipPath ++ "/" ++ forceExt Char.toLower ]

/-- `getFileInfo` of src/unnamed/part_000 lines 109-126: open, read
`dataset.layers.count()` (a missing layer collection throws inside the
`try`), wrap failures with `Failed to read file: `. -/
def getFileInfoB (w : World) (p : String) : Except String ResultVal :=
  match w.openResult p with
  | .error msg => .error ("Failed to read file: " ++ msg)
  | .ok ds =>
    match ds.layers with
    | none => .error "Failed to read file: Cannot read properties of undefined"
    | some ls =>
      .ok (.infoBR (jsOrStr ds.description "Unknown") ls.length)

/-- `getDetailedInfo` of src/unnamed/part_000 lines 129-162, kept at the
summary granularity the claims need: open and walk the layer collection,
wrapping failures with `Failed to get detailed info: `. -/
def getDetailedInfoB (w : World) (p : String) : Except String ResultVal :=
  match w.openResult p with
  | .error msg => .error ("Failed to get detailed info: " ++ msg)
  | .ok ds =>
    match ds.layers with
    | none =>
      .error "Failed to get detailed info: Cannot read properties of undefined"
    | some ls =>
      .ok (.detailedBR (jsOrStr ds.description "Unknown") ls.length)

/-- `extractLayerBasic` of src/unnamed/part_000 lines 165-199: open, get
the layer by name, walk every feature with no cap and no transformation;
a feature whose processing throws aborts the walk (there is no per-feature
catch); failures are wrapped with `Failed to extract layer: `. -/
def extractLayerBasic (w : World) (p layerName : String) :
    Except String ResultVal :=
  match w.openResult p with
  | .error msg => .error ("Failed to extract layer: " ++ msg)
  | .ok ds =>
    match ds.layers with
    | none => .error "Failed to extract layer: Cannot read properties of undefined"
    | some ls =>
      match ls.find? (fun l => l.lname == layerName) with
      | none =>
        .error ("Failed to extract layer: Layer \"" ++ layerName ++
          "\" not found")
      | some L =>
        if L.features.any (fun f => f.procFails) then
          .error "Failed to extract layer: feature read error"
        else
          .ok (.extractBR layerName L.features.length)

/-- Wrap a part_000 handler result: 200 unlinks the scratch file; the catch
block responds 500 with the raw message as the `error` field and unlinks.
The resolver's probe attempts precede the handler's own open attempt. -/
def finishRunB (tag : HandlerTag) (pr : ResolveOut) (gdalPath : String) :
    Except String ResultVal → Outcome
  | .ok r =>
    { status := 200, invoked := some tag, opens := pr.attempted ++ [gdalPath],
      fileRemains := false, errorField := none, details := none,
      result := some r }
  | .error msg =>
    { status := 500, invoked := some tag, opens := pr.attempted ++ [gdalPath],
      fileRemains := false, errorField := some msg, details := none,
      result := none }

/-- The POST /process-geospatial route handler of src/unnamed/part_000
lines 202-261: missing-file check, path resolution (with its zip probes)
before the operation is read, a switch whose `list-layers` case runs the
`getFileInfo` handler as an alias, an extract-layer `layerName`
precondition, and a `default` branch answering 400 `Unknown operation`;
both early 400 returns skip the unlink, so the scratch file remains. -/
def processGeospatialB (w : World) (req : Request) : Outcome :=
  match req.file with
  | none =>
    { status := 400, invoked := none, opens := [], fileRemains := false,
      errorField := some "No file uploaded", details := none, result := none }
  | some f =>
    let pr := formatGDALPath w f.path f.originalname
    let gdalPath := pr.path
    let op := req.body.operation
    if op = some "info" then
      finishRunB .info pr gdalPath (getFileInfoB w gdalPath)
    else if op = some "detailed-info" then
      finishRunB .detailedInfo pr gdalPath (getDetailedInfoB w gdalPath)
    else if op = some "list-layers" then
      finishRunB .info pr gdalPath (getFileInfoB w gdalPath)
    else if op = some "extract-layer" then
      if !(jsTruthyStr req.body.layerName) then
        { status := 400, invoked := none, opens := pr.attempted,
          fileRemains := true, errorField := some "Layer name required",
          details := none, result := none }
      else
        finishRunB .extractLayer pr gdalPath
          (extractLayerBasic w gdalPath ((req.body.layerName).getD ""))
    else
      { status := 400, invoked := none, opens := pr.attempted,
        fileRemains := true, errorField := some "Unknown operation",
        details := none, result := none }

/-- Once the cap has been reached the feature loop emits nothing more. -/
theorem extractLoop_skip (w : World) (ct : Bool) (ns : List String) :
    ∀ (fs : List Feature) (c : Nat), 10000 ≤ c →
      extractLoop w ct ns fs c = (c, []) := by
  intro fs
  induction fs with
  | nil => intro c _; rfl
  | cons f fs ih =>
    intro c hc
    simp only [extractLoop, if_pos hc]
    exact ih c hc

/-- Closed form of the feature loop: starting from count `c ≤ 10000`, it
emits exactly the first `10000 - c` non-failing features, mapped through the
per-feature record builder, and the final count adds their number. -/
theorem extractLoop_char (w : World) (ct : Bool) (ns : List String) :
    ∀ (fs : List Feature) (c : Nat), c ≤ 10000 →
      extractLoop w ct ns fs c =
        (c + ((fs.filter (fun f => !f.procFails)).take (10000 - c)).length,
         ((fs.filter (fun f => !f.procFails)).take (10000 - c)).map
           (mkFeatureOut w ct ns)) := by
  intro fs
  induction fs with
  | nil => intro c hc; simp [extractLoop]
  | cons f fs ih =>
    intro c hc
    rcases Nat.lt_or_ge c 10000 with hlt | hge
    · have hcap : ¬ (10000 ≤ c) := Nat.not_le_of_lt hlt
      by_cases hpf : f.procFails = true
      · simp only [extractLoop, if_neg hcap, hpf, if_true]
        rw [ih c hc]
        simp [List.filter_cons, hpf]
      · simp only [extractLoop, if_neg hcap]
        rw [if_neg hpf, ih (c + 1) (by omega)]
        have hpf' : (!f.procFails) = true := by simp [hpf]
        have htake : 10000 - c = (10000 - (c + 1)) + 1 := by omega
        simp only [List.filter_cons, hpf', if_true, htake,
          List.take_succ_cons, List.length_cons, List.map_cons, Prod.mk.injEq]
        exact ⟨by omega, trivial⟩
    · have hceq : c = 10000 := Nat.le_antisymm hc hge
      subst hceq
      rw [extractLoop_skip w ct ns _ _ hge]
      simp

/-- Closed form of `extractLayerFeatures` on the success path: with the
dataset open, a usable layer collection, and the layer found, the result is
the record whose feature list is the capped, failure-filtered feature list
of the layer. -/
theorem extractLayerFeatures_char (w : World) (p ln : String) (tc : Bool)
    (ds : Dataset) (ls : List Layer) (L : Layer)
    (hopen : w.openResult p = .ok ds) (hls : ds.layers = some ls)
    (hfind : ls.find? (fun l => l.lname == ln) = some L) :
    extractLayerFeatures w p ln tc = .ok
      { name := ln,
        feature_count :=
          ((L.features.filter (fun f => !f.procFails)).take 10000).length,
        geometry_type := extractGeomTypeName w L.geomType,
        sr_original :=
          match L.srs with
          | some s => s.wkt
          | none => "Unknown",
        sr_transformed := if tc then some "EPSG:4326 (WGS84)" else none,
        coordinate_transformation_applied := ctOf w tc L,
        fields := extractFieldsOut L,
        features :=
          ((L.features.filter (fun f => !f.procFails)).take 10000).map
            (mkFeatureOut w (ctOf w tc L) (layerFieldNames L)),
        extraction_summary :=
          { total_extracted :=
              ((L.features.filter (fun f => !f.procFails)).take 10000).length,
            coordinate_transformation_applied := ctOf w tc L,
            max_feature_limit := 10000,
            truncated :=
              decide (10000 ≤
                ((L.features.filter (fun f => !f.procFails)).take 10000).length) } } := by
  have hloop := extractLoop_char w (ctOf w tc L) (layerFieldNames L)
    L.features 0 (by omega)
  simp only [extractLayerFeatures, hopen, hls, hfind, hloop, Nat.sub_zero,
    Nat.zero_add]

/-- Transformation-applied flag of an extract-layer response, when any. -/
def extractResultApplied (e : Except ExtractErr ExtractResult) : Option Bool :=
  match e with
  | .ok r => some r.coordinate_transformation_applied
  | .error _ => none

/-- Feature list of an extract-layer response, when any. -/
def extractResultFeatures (e : Except ExtractErr ExtractResult) :
    Option (List FeatureOut) :=
  match e with
  | .ok r => some r.features
  | .error _ => none

/-- Transformation-applied flag inside a dispatcher outcome, when its
payload is an extract-layer response. -/
def outcomeApplied (o : Outcome) : Option Bool :=
  match o.result with
  | some (.extractR e) => some e.coordinate_transformation_applied
  | _ => none

/-- Feature list inside a dispatcher outcome, when its payload is an
extract-layer response. -/
def outcomeFeatures (o : Outcome) : Option (List FeatureOut) :=
  match o.result with
  | some (.extractR e) => some e.features
  | _ => none

/-- A concrete spatial reference for test datasets. -/
def srsA : SRS := { wkt := "PROJCS wkt-A" }

/-- A concrete field definition for test datasets. -/
def fieldId : FieldDefn :=
  { fname := "id", ftypeName := some "Integer", width := some 10,
    precision := some 0, getFails := false }

/-- A concrete feature with geometry id 5. -/
def featA : Feature :=
  { fid := 1, geometry := some { gid := 5 }, procFails := false,
    propVal := fun _ => none }

/-- A concrete feature with geometry id 6. -/
def featB : Feature :=
  { fid := 2, geometry := some { gid := 6 }, procFails := false,
    propVal := fun _ => none }

/-- A two-feature test layer named `roads`, with an SRS and one field. -/
def layerRoads : Layer :=
  { lname := "roads", geomType := some 3, srs := some srsA,
    features := [featA, featB], fields := some [fieldId] }

/-- An empty test layer named `rivers`, with no SRS and no fields. -/
def layerRivers : Layer :=
  { lname := "rivers", geomType := some 2, srs := none, features := [],
    fields := none }

/-- A concrete vector dataset with layers `roads` and `rivers`. -/
def dsStd : Dataset :=
  { driver := some { description := "OpenFileGDB" }, description := some "d",
    rasterSize := none, srs := none, layers := some [layerRoads, layerRivers] }

/-- A world in which every path opens to `dsStd`, transformation setup
always succeeds, and transforming geometry `g` yields geometry
`g.gid + 100`. -/
def wStd : World :=
  { openResult := fun _ => .ok dsStd,
    setupOk := fun _ => true,
    transformGeom := fun g => some { gid := g.gid + 100 },
    wkbGeometryType := fun _ => some "Polygon" }

/-- A world in which every open fails and every transform fails. -/
def wFail : World :=
  { openResult := fun _ => .error "open failed",
    setupOk := fun _ => false,
    transformGeom := fun _ => none,
    wkbGeometryType := fun _ => none }

/-- A world that opens `dsStd` everywhere but in which every per-feature
geometry transform throws. -/
def wGeomFail : World :=
  { openResult := fun _ => .ok dsStd,
    setupOk := fun _ => true,
    transformGeom := fun _ => none,
    wkbGeometryType := fun _ => some "Polygon" }

/-- A concrete non-archive upload. -/
def fileA : UploadFile := { path := "/uploads/1-a.shp", originalname := "a.shp" }

/-- A request body with every field absent. -/
def bodyEmpty : Body :=
  { operation := none, format := none, layerName := none,
    transformCoords := none, transformCoordinates := none }

/-- A request with a file and an unrecognized operation identifier. -/
def reqUnknownOp : Request :=
  { file := some fileA, body := { bodyEmpty with operation := some "frobnicate" } }

/-- C1, counterexample.  A request whose `operation` is the unrecognized
value `frobnicate` is not failed with a client error: the src/server.js
dispatcher falls into the switch's default branch, silently runs the `info`
handler, and answers 200 with no error field — contradicting the claim that
an unrecognized identifier fails the request and that no handler is
invoked. -/
theorem c1_unknown_operation_silently_runs_info :
    (processGeospatial wStd reqUnknownOp).status = 200 ∧
    (processGeospatial wStd reqUnknownOp).invoked = some HandlerTag.info ∧
    (processGeospatial wStd reqUnknownOp).errorField = none :=
  ⟨rfl, rfl, rfl⟩

/-- An extract-layer request that carries a file but no `layerName`. -/
def reqMissingLayerName : Request :=
  { file := some fileA, body := { bodyEmpty with operation := some "extract-layer" } }

/-- C2, evaluation at the failing input.  An extract-layer request with an
uploaded file but no `layerName` field is answered 400 by the early return
of src/server.js line 84, which runs before the unlink of line 93 and
throws nothing, so neither cleanup path executes: the uploaded scratch file
still exists after the response has been sent, contradicting the
zero-residual-files invariant. -/
theorem c2_scratch_file_remains_after_missing_layerName_400 :
    (processGeospatial wStd reqMissingLayerName).status = 400 ∧
    (processGeospatial wStd reqMissingLayerName).fileRemains = true :=
  ⟨rfl, rfl⟩

/-- An extract-layer request naming a layer the dataset does not have. -/
def reqUnknownLayer : Request :=
  { file := some fileA, body := { bodyEmpty with operation := some "extract-layer", layerName := some "nosuch" } }

/-- C4, counterexample.  An extract-layer request naming a non-existent
layer is a client error per the claim, yet the code answers it with status
500 (`Processing failed`), and the toolkit open call on the resolved path
was attempted — contradicting both the 4xx status and the no-toolkit-call
halves of the claim. -/
theorem c4_unknown_layer_answered_500_after_open :
    (processGeospatial wStd reqUnknownLayer).status = 500 ∧
    (processGeospatial wStd reqUnknownLayer).opens = ["/uploads/1-a.shp"] ∧
    (processGeospatial wStd reqUnknownLayer).errorField =
      some "Processing failed" := by
  refine ⟨by decide, by decide, by decide⟩

/-- An extract-layer request that sets the spec-documented field
`transformCoordinates` to `false` and leaves `transformCoords` unset. -/
def reqSpecFieldFalse : Request :=
  { file := some fileA, body := { bodyEmpty with operation := some "extract-layer", layerName := some "roads", transformCoordinates := some "false" } }

/-- C5, counterexample.  A caller that sets `transformCoordinates=false`
(the field the claim names) still gets reprojected output: the code reads
`req.body.transformCoords`, which is absent, so transformation defaults to
on — the response reports the transformation as applied and both features
carry transformed geometries (gid 105 and 106 instead of the original 5 and
6), contradicting the claim that setting `transformCoordinates` to false
disables reprojection. -/
theorem c5_transformCoordinates_false_still_reprojects :
    outcomeApplied (processGeospatial wStd reqSpecFieldFalse) = some true ∧
    outcomeFeatures (processGeospatial wStd reqSpecFieldFalse) =
      some
        [ { fid := 1, geometry := some { gid := 105 },
            properties := [("id", none)] },
          { fid := 2, geometry := some { gid := 106 },
            properties := [("id", none)] } ] := by
  refine ⟨by decide, by decide⟩

/-- C3.  Whenever `extractLayerFeatures` succeeds, the returned `features`
array holds at most 10000 entries — however many features the layer has —
and the summary's `truncated` flag is true exactly when the number of
extracted features reached the cap. -/
theorem c3_extract_cap_and_truncation (w : World) (p ln : String) (tc : Bool)
    (r : ExtractResult) (h : extractLayerFeatures w p ln tc = .ok r) :
    r.features.length ≤ 10000 ∧
      (r.extraction_summary.truncated = true ↔ r.features.length = 10000) := by
  cases hopen : w.openResult p with
  | error m => simp [extractLayerFeatures, hopen] at h
  | ok ds =>
    cases hls : ds.layers with
    | none => simp [extractLayerFeatures, hopen, hls] at h
    | some ls =>
      cases hfind : ls.find? (fun l => l.lname == ln) with
      | none => simp [extractLayerFeatures, hopen, hls, hfind] at h
      | some L =>
        rw [extractLayerFeatures_char w p ln tc ds ls L hopen hls hfind,
          Except.ok.injEq] at h
        subst h
        have hlen : ((L.features.filter (fun f => !f.procFails)).take
            10000).length ≤ 10000 := by
          rw [List.length_take]
          exact min_le_left _ _
        refine ⟨by simpa using hlen, ?_⟩
        simp only [List.length_map]
        constructor
        · intro htr
          have := of_decide_eq_true htr
          omega
        · intro hlenEq
          exact decide_eq_true (by omega)

/-- The result of a concrete successful extraction over the two-feature
`roads` layer, used by witnesses. -/
def rStd : ExtractResult :=
  match extractLayerFeatures wStd "/uploads/1-a.shp" "roads" true with
  | .ok r => r
  | .error _ =>
    { name := "", feature_count := 0, geometry_type := none,
      sr_original := "", sr_transformed := none,
      coordinate_transformation_applied := false, fields := [],
      features := [],
      extraction_summary :=
        { total_extracted := 0, coordinate_transformation_applied := false,
          max_feature_limit := 0, truncated := false } }

/-- Witness for C3 at a concrete extraction. -/
theorem c3_extract_cap_and_truncation_witness :
    rStd.features.length ≤ 10000 ∧
      (rStd.extraction_summary.truncated = true ↔
        rStd.features.length = 10000) :=
  c3_extract_cap_and_truncation wStd "/uploads/1-a.shp" "roads" true rStd rfl

/-- C10.  In every successful extract-layer result the top-level
`feature_count` (and the summary's `total_extracted`) equals the number of
entries of the returned `features` array — the field is overwritten with
the extracted count after the loop — and therefore never exceeds the
10000-feature cap. -/
theorem c10_feature_count_equals_array_length (w : World) (p ln : String)
    (tc : Bool) (r : ExtractResult)
    (h : extractLayerFeatures w p ln tc = .ok r) :
    r.feature_count = r.features.length ∧
    r.extraction_summary.total_extracted = r.features.length ∧
    r.feature_count ≤ 10000 := by
  cases hopen : w.openResult p with
  | error m => simp [extractLayerFeatures, hopen] at h
  | ok ds =>
    cases hls : ds.layers with
    | none => simp [extractLayerFeatures, hopen, hls] at h
    | some ls =>
      cases hfind : ls.find? (fun l => l.lname == ln) with
      | none => simp [extractLayerFeatures, hopen, hls, hfind] at h
      | some L =>
        rw [extractLayerFeatures_char w p ln tc ds ls L hopen hls hfind,
          Except.ok.injEq] at h
        subst h
        have hlen : ((L.features.filter (fun f => !f.procFails)).take
            10000).length ≤ 10000 := by
          rw [List.length_take]
          exact min_le_left _ _
        refine ⟨by simp, by simp, by simpa using hlen⟩

/-- Witness for C10 at a concrete extraction. -/
theorem c10_feature_count_equals_array_length_witness :
    rStd.feature_count = rStd.features.length ∧
    rStd.extraction_summary.total_extracted = rStd.features.length ∧
    rStd.feature_count ≤ 10000 :=
  c10_feature_count_equals_array_length wStd "/uploads/1-a.shp" "roads" true
    rStd rfl

/-- C6.  With the dataset open and the layer found, extraction always
succeeds (`isOk`): a transformation-setup failure only turns the transform
off (last conjunct), a per-feature transform failure leaves that feature in
the output with its original geometry (fourth conjunct), which features are
emitted is determined by the failure-filtered capped feature list alone —
independent of any transform outcome (third conjunct) — and the response
reports whether the transformation object was actually constructed (second
conjunct). -/
theorem c6_transform_failures_never_abort (w : World) (p ln : String)
    (tc : Bool) (ds : Dataset) (ls : List Layer) (L : Layer)
    (hopen : w.openResult p = .ok ds) (hls : ds.layers = some ls)
    (hfind : ls.find? (fun l => l.lname == ln) = some L) :
    (extractLayerFeatures w p ln tc).isOk = true ∧
    extractResultApplied (extractLayerFeatures w p ln tc) =
      some (ctOf w tc L) ∧
    extractResultFeatures (extractLayerFeatures w p ln tc) =
      some (((L.features.filter (fun f => !f.procFails)).take 10000).map
        (mkFeatureOut w (ctOf w tc L) (layerFieldNames L))) ∧
    (∀ (f : Feature) (g : Geometry), f.geometry = some g →
      w.transformGeom g = none →
      (mkFeatureOut w (ctOf w tc L) (layerFieldNames L) f).geometry =
        some g) ∧
    (∀ s, L.srs = some s → w.setupOk s = false → ctOf w tc L = false) := by
  rw [extractLayerFeatures_char w p ln tc ds ls L hopen hls hfind]
  refine ⟨rfl, rfl, rfl, ?_, ?_⟩
  · intro f g hg htf
    cases hct : ctOf w tc L <;> simp [mkFeatureOut, hg, htf, hct]
  · intro s hs hsetup
    simp [ctOf, hs, hsetup]

/-- Witness for C6 in a world where every per-feature transform throws. -/
theorem c6_transform_failures_never_abort_witness :
    (extractLayerFeatures wGeomFail "/uploads/1-a.shp" "roads" true).isOk =
      true ∧
    extractResultApplied
      (extractLayerFeatures wGeomFail "/uploads/1-a.shp" "roads" true) =
      some (ctOf wGeomFail true layerRoads) ∧
    extractResultFeatures
      (extractLayerFeatures wGeomFail "/uploads/1-a.shp" "roads" true) =
      some (((layerRoads.features.filter (fun f => !f.procFails)).take
        10000).map
          (mkFeatureOut wGeomFail (ctOf wGeomFail true layerRoads)
            (layerFieldNames layerRoads))) ∧
    (∀ (f : Feature) (g : Geometry), f.geometry = some g →
      wGeomFail.transformGeom g = none →
      (mkFeatureOut wGeomFail (ctOf wGeomFail true layerRoads)
        (layerFieldNames layerRoads) f).geometry = some g) ∧
    (∀ s, layerRoads.srs = some s → wGeomFail.setupOk s = false →
      ctOf wGeomFail true layerRoads = false) :=
  c6_transform_failures_never_abort wGeomFail "/uploads/1-a.shp" "roads" true
    dsStd [layerRoads, layerRivers] layerRoads rfl rfl rfl

/-- C7.  When the requested layer name matches no layer of the opened
dataset, extraction fails with the not-found error whose available-layers
list is built from every index of the layer collection, and every layer's
name is a member of that list. -/
theorem c7_unknown_layer_error_lists_all_names (w : World) (p ln : String)
    (tc : Bool) (ds : Dataset) (ls : List Layer)
    (hopen : w.openResult p = .ok ds) (hls : ds.layers = some ls)
    (hnone : ∀ l ∈ ls, l.lname ≠ ln) :
    extractLayerFeatures w p ln tc =
      .error (.layerNotFound ln (availableNames ls)) ∧
    ∀ l ∈ ls, l.lname ∈ availableNames ls := by
  have hfind : ls.find? (fun l => l.lname == ln) = none := by
    rw [List.find?_eq_none]
    intro l hl
    simpa using hnone l hl
  refine ⟨by simp [extractLayerFeatures, hopen, hls, hfind], ?_⟩
  intro l hl
  obtain ⟨n, hn⟩ := List.mem_iff_get.mp hl
  refine List.mem_map.mpr ⟨n.val, List.mem_range.mpr n.isLt, ?_⟩
  rw [List.get?_eq_get n.isLt]
  simp only [Option.map_some', Option.getD_some, Fin.eta]
  rw [hn]

/-- Witness for C7 at a concrete two-layer dataset and an absent name. -/
theorem c7_unknown_layer_error_lists_all_names_witness :
    extractLayerFeatures wStd "/uploads/1-a.shp" "nosuch" true =
      .error (.layerNotFound "nosuch"
        (availableNames [layerRoads, layerRivers])) ∧
    ∀ l ∈ [layerRoads, layerRivers],
      l.lname ∈ availableNames [layerRoads, layerRivers] :=
  c7_unknown_layer_error_lists_all_names wStd "/uploads/1-a.shp" "nosuch"
    true dsStd [layerRoads, layerRivers] rfl rfl (by decide)

/-- A dataset for which the toolkit reports none of the optional values. -/
def dsBare : Dataset :=
  { driver := none, description := none, rasterSize := none, srs := none,
    layers := none }

/-- A world whose every open yields the value-less dataset `dsBare`. -/
def wBare : World :=
  { openResult := fun _ => .ok dsBare,
    setupOk := fun _ => false,
    transformGeom := fun _ => none,
    wkbGeometryType := fun _ => none }

/-- C8.  For every file the toolkit opens successfully under
`operation=info`, the response object carries exactly the five keys
`driver`, `size`, `layers`, `projection`, `extent`, and values the toolkit
does not report are rendered as the documented sentinels — `Unknown` for a
missing (or empty) driver description and a missing projection, zero for a
missing raster size and a missing layer collection — with `extent` always
the literal null, never an omitted key. -/
theorem c8_info_keys_and_sentinels (w : World) (p : String) (ds : Dataset)
    (h : w.openResult p = .ok ds) :
    getFileInfo w p = .ok (fileInfoJson ds) ∧
    jKeys (fileInfoJson ds) =
      ["driver", "size", "layers", "projection", "extent"] ∧
    (ds.driver = none →
      jLookup (fileInfoJson ds) "driver" = some (.jstr "Unknown")) ∧
    (∀ d, ds.driver = some d → d.description = "" →
      jLookup (fileInfoJson ds) "driver" = some (.jstr "Unknown")) ∧
    (ds.srs = none →
      jLookup (fileInfoJson ds) "projection" = some (.jstr "Unknown")) ∧
    (ds.rasterSize = none →
      jLookup (fileInfoJson ds) "size" =
        some (.jobj [("width", .jnum 0), ("height", .jnum 0)])) ∧
    (ds.layers = none →
      jLookup (fileInfoJson ds) "layers" = some (.jnum 0)) ∧
    jLookup (fileInfoJson ds) "extent" = some .jnull := by
  refine ⟨by simp [getFileInfo, h], rfl, ?_, ?_, ?_, ?_, ?_, rfl⟩
  · intro hd
    simp only [fileInfoJson, jLookup]
    rw [hd]
    rfl
  · intro d hd hdesc
    simp only [fileInfoJson, jLookup, hd, Option.map_some']
    rw [hdesc]
    rfl
  · intro hs
    simp only [fileInfoJson, jLookup]
    rw [hs]
    rfl
  · intro hr
    simp only [fileInfoJson, jLookup]
    rw [hr]
    rfl
  · intro hl
    simp only [fileInfoJson, jLookup]
    rw [hl]
    rfl

/-- Witness for C8 at the value-less dataset. -/
theorem c8_info_keys_and_sentinels_witness :
    getFileInfo wBare "/uploads/1-a.shp" = .ok (fileInfoJson dsBare) ∧
    jKeys (fileInfoJson dsBare) =
      ["driver", "size", "layers", "projection", "extent"] ∧
    (dsBare.driver = none →
      jLookup (fileInfoJson dsBare) "driver" = some (.jstr "Unknown")) ∧
    (∀ d, dsBare.driver = some d → d.description = "" →
      jLookup (fileInfoJson dsBare) "driver" = some (.jstr "Unknown")) ∧
    (dsBare.srs = none →
      jLookup (fileInfoJson dsBare) "projection" = some (.jstr "Unknown")) ∧
    (dsBare.rasterSize = none →
      jLookup (fileInfoJson dsBare) "size" =
        some (.jobj [("width", .jnum 0), ("height", .jnum 0)])) ∧
    (dsBare.layers = none →
      jLookup (fileInfoJson dsBare) "layers" = some (.jnum 0)) ∧
    jLookup (fileInfoJson dsBare) "extent" = some .jnull :=
  c8_info_keys_and_sentinels wBare "/uploads/1-a.shp" dsBare rfl

/-- C1, amended.  In src/server.js a bad operation is never rejected: when
the operation field (after the `|| 'info'` default) is none of the five
recognized identifiers — which covers both a missing field and an
unrecognized value — the dispatcher silently invokes the `info` handler and
the status is never a client error.  In src/unnamed/part_000 an operation
that is none of that revision's four recognized identifiers (it has no
`convert` case) is answered 400 with the fixed message `Unknown operation`,
which does not name the bad value, and no operation handler is invoked. -/
theorem c1_dispatcher_unknown_operation (w : World) (req : Request)
    (f : UploadFile) (hf : req.file = some f) :
    (jsOrStr req.body.operation "info" ∉
        (["info", "detailed-info", "list-layers", "convert",
          "extract-layer"] : List String) →
      (processGeospatial w req).invoked = some HandlerTag.info ∧
      (processGeospatial w req).status ≠ 400) ∧
    (req.body.operation ∉
        ([some "info", some "detailed-info", some "list-layers",
          some "extract-layer"] : List (Option String)) →
      (processGeospatialB w req).status = 400 ∧
      (processGeospatialB w req).errorField = some "Unknown operation" ∧
      (processGeospatialB w req).invoked = none) := by
  constructor
  · intro hop
    simp only [List.mem_cons, List.not_mem_nil, or_false, not_or] at hop
    obtain ⟨h1, h2, h3, h4, h5⟩ := hop
    simp only [processGeospatial, hf]
    rw [if_neg h2, if_neg h3, if_neg h4, if_neg h5]
    cases hres : getFileInfo w (gdalPathOf f) <;>
      simp [finishRun, hres, Except.map]
  · intro hop
    simp only [List.mem_cons, List.not_mem_nil, or_false, not_or] at hop
    obtain ⟨h1, h2, h3, h4⟩ := hop
    simp only [processGeospatialB, hf]
    rw [if_neg h1, if_neg h2, if_neg h3, if_neg h4]
    exact ⟨rfl, rfl, rfl⟩

/-- Witness for C1 at the concrete unrecognized operation `frobnicate`. -/
theorem c1_dispatcher_unknown_operation_witness :
    ((processGeospatial wStd reqUnknownOp).invoked = some HandlerTag.info ∧
      (processGeospatial wStd reqUnknownOp).status ≠ 400) ∧
    ((processGeospatialB wStd reqUnknownOp).status = 400 ∧
      (processGeospatialB wStd reqUnknownOp).errorField =
        some "Unknown operation" ∧
      (processGeospatialB wStd reqUnknownOp).invoked = none) :=
  ⟨(c1_dispatcher_unknown_operation wStd reqUnknownOp fileA rfl).1
      (by decide),
   (c1_dispatcher_unknown_operation wStd reqUnknownOp fileA rfl).2
      (by decide)⟩

/-- C5, amended.  The reprojection-controlling form field is
`transformCoords` (not `transformCoordinates`): transformation is requested
unless that field is exactly the string `false`, so it defaults to on when
the field is absent; with the layer's spatial reference present and the
transformation constructing, every emitted feature's geometry goes through
the single per-call transform `w.transformGeom`, and the conjuncts spell
out that a field value `false` turns the transform off, absence (with
working setup) turns it on, and an inactive transform leaves every
geometry untouched. -/
theorem c5_transformCoords_controls_reprojection (w : World) (req : Request)
    (f : UploadFile) (ln : String) (ds : Dataset) (ls : List Layer)
    (L : Layer) (hf : req.file = some f)
    (hop : req.body.operation = some "extract-layer")
    (hln : req.body.layerName = some ln) (hne : ln ≠ "")
    (hopen : w.openResult (gdalPathOf f) = .ok ds)
    (hls : ds.layers = some ls)
    (hfind : ls.find? (fun l => l.lname == ln) = some L) :
    outcomeApplied (processGeospatial w req) =
      some (ctOf w (!(req.body.transformCoords == some "false")) L) ∧
    outcomeFeatures (processGeospatial w req) =
      some (((L.features.filter (fun x => !x.procFails)).take 10000).map
        (mkFeatureOut w
          (ctOf w (!(req.body.transformCoords == some "false")) L)
          (layerFieldNames L))) ∧
    (req.body.transformCoords = some "false" →
      ctOf w (!(req.body.transformCoords == some "false")) L = false) ∧
    (req.body.transformCoords = none → ∀ s, L.srs = some s →
      w.setupOk s = true →
      ctOf w (!(req.body.transformCoords == some "false")) L = true) ∧
    (∀ f2, (mkFeatureOut w false (layerFieldNames L) f2).geometry =
      f2.geometry) := by
  have hopv : jsOrStr req.body.operation "info" = "extract-layer" := by
    rw [hop]; rfl
  have htr : jsTruthyStr req.body.layerName = true := by
    simp [jsTruthyStr, hln, hne]
  have hdisp : processGeospatial w req =
      finishRun .extractLayer (gdalPathOf f)
        (((extractLayerFeatures w (gdalPathOf f) ln
              (!(req.body.transformCoords == some "false"))).map
            ResultVal.extractR).mapError
          (fun e => "Failed to extract layer: " ++ e.message)) := by
    simp only [processGeospatial, hf, hopv]
    rw [if_neg (by decide), if_neg (by decide), if_neg (by decide),
      if_pos (by decide)]
    rw [htr]
    simp [hln]
  rw [hdisp,
    extractLayerFeatures_char w (gdalPathOf f) ln
      (!(req.body.transformCoords == some "false")) ds ls L hopen hls hfind]
  refine ⟨rfl, rfl, ?_, ?_, ?_⟩
  · intro h
    rw [h]
    cases hsrs : L.srs <;> simp [ctOf, hsrs]
  · intro h s hs hset
    rw [h]
    simp [ctOf, hs, hset]
  · intro f2
    cases hg : f2.geometry <;> simp [mkFeatureOut, hg]

/-- Witness for C5 at a concrete extract-layer request with the field
absent (transformation on by default). -/
theorem c5_transformCoords_controls_reprojection_witness :
    outcomeApplied (processGeospatial wStd reqSpecFieldFalse) =
      some (ctOf wStd
        (!(reqSpecFieldFalse.body.transformCoords == some "false"))
        layerRoads) ∧
    outcomeFeatures (processGeospatial wStd reqSpecFieldFalse) =
      some (((layerRoads.features.filter (fun x => !x.procFails)).take
        10000).map
          (mkFeatureOut wStd
            (ctOf wStd
              (!(reqSpecFieldFalse.body.transformCoords == some "false"))
              layerRoads)
            (layerFieldNames layerRoads))) ∧
    (reqSpecFieldFalse.body.transformCoords = some "false" →
      ctOf wStd
        (!(reqSpecFieldFalse.body.transformCoords == some "false"))
        layerRoads = false) ∧
    (reqSpecFieldFalse.body.transformCoords = none →
      ∀ s, layerRoads.srs = some s → wStd.setupOk s = true →
      ctOf wStd
        (!(reqSpecFieldFalse.body.transformCoords == some "false"))
        layerRoads = true) ∧
    (∀ f2, (mkFeatureOut wStd false (layerFieldNames layerRoads)
      f2).geometry = f2.geometry) :=
  c5_transformCoords_controls_reprojection wStd reqSpecFieldFalse fileA
    "roads" dsStd [layerRoads, layerRivers] layerRoads rfl rfl rfl
    (by decide) rfl rfl rfl

/-- C4, amended.  Only the two pre-handler checks yield 4xx responses with
no toolkit call: a missing file, and a missing or empty `layerName` on
extract-layer.  A non-existent layer name and an unsupported conversion
format are detected inside the handlers only after `gdal.openAsync` has
been attempted on the resolved path, and both are answered 500 with the
thrown message in `details` — not 4xx. -/
theorem c4_error_taxonomy (w : World) (req : Request) :
    (req.file = none →
      (processGeospatial w req).status = 400 ∧
      (processGeospatial w req).opens = []) ∧
    (∀ f, req.file = some f → req.body.operation = some "extract-layer" →
      jsTruthyStr req.body.layerName = false →
      (processGeospatial w req).status = 400 ∧
      (processGeospatial w req).opens = []) ∧
    (∀ f ln ds ls, req.file = some f →
      req.body.operation = some "extract-layer" →
      req.body.layerName = some ln → ln ≠ "" →
      w.openResult (gdalPathOf f) = .ok ds → ds.layers = some ls →
      ls.find? (fun l => l.lname == ln) = none →
      (processGeospatial w req).status = 500 ∧
      (processGeospatial w req).opens = [gdalPathOf f] ∧
      (processGeospatial w req).details =
        some ("Failed to extract layer: " ++
          (ExtractErr.layerNotFound ln (availableNames ls)).message)) ∧
    (∀ f fmt ds, req.file = some f → req.body.operation = some "convert" →
      req.body.format = some fmt → fmt ≠ "" →
      ¬(strToUpper fmt = "GEOJSON" ∨ strToUpper fmt = "SHAPEFILE" ∨
        strToUpper fmt = "KML") →
      w.openResult (gdalPathOf f) = .ok ds →
      (processGeospatial w req).status = 500 ∧
      (processGeospatial w req).opens = [gdalPathOf f] ∧
      (processGeospatial w req).details =
        some ("Unsupported format: " ++ fmt)) := by
  refine ⟨?_, ?_, ?_, ?_⟩
  · intro h
    simp [processGeospatial, h]
  · intro f hf hop hfalse
    have hopv : jsOrStr req.body.operation "info" = "extract-layer" := by
      rw [hop]; rfl
    simp only [processGeospatial, hf, hopv]
    rw [if_neg (by decide), if_neg (by decide), if_neg (by decide),
      if_pos (by decide), hfalse]
    simp
  · intro f ln ds ls hf hop hln hne hopen hls hfind
    have hopv : jsOrStr req.body.operation "info" = "extract-layer" := by
      rw [hop]; rfl
    have htru : jsTruthyStr req.body.layerName = true := by
      simp [jsTruthyStr, hln, hne]
    simp only [processGeospatial, hf, hopv]
    rw [if_neg (by decide), if_neg (by decide), if_neg (by decide),
      if_pos (by decide), htru]
    simp only [Bool.not_true, Bool.false_eq_true, if_false, hln,
      Option.getD_some]
    simp [extractLayerFeatures, hopen, hls, hfind, finishRun, Except.map,
      Except.mapError]
  · intro f fmt ds hf hop hfmt hne hnsup hopen
    have hopv : jsOrStr req.body.operation "info" = "convert" := by
      rw [hop]; rfl
    have hfmtv : jsOrStr req.body.format "GeoJSON" = fmt := by
      rw [hfmt]
      simp [jsOrStr, hne]
    simp only [processGeospatial, hf, hopv]
    rw [if_neg (by decide), if_neg (by decide), if_pos (by decide), hfmtv]
    simp [convertFile, hopen, hnsup, finishRun, Except.map, Except.mapError]

/-- Witness for C4 at a concrete unknown-layer extract request. -/
theorem c4_error_taxonomy_witness :
    (processGeospatial wStd reqUnknownLayer).status = 500 ∧
    (processGeospatial wStd reqUnknownLayer).opens = [gdalPathOf fileA] ∧
    (processGeospatial wStd reqUnknownLayer).details =
      some ("Failed to extract layer: " ++
        (ExtractErr.layerNotFound "nosuch"
          (availableNames [layerRoads, layerRivers])).message) :=
  (c4_error_taxonomy wStd reqUnknownLayer).2.2.1 fileA "nosuch" dsStd
    [layerRoads, layerRivers] rfl rfl rfl (by decide) rfl rfl rfl

/-- C9, counterexample.  For the archive name `Data.gdb.zip` (whose base
name already carries a `.gdb` extension), the code's probe sequence is not
the claimed one: the code's third candidate leaves the extension's case
unchanged (it only appends `.GDB` when no `.gdb` suffix is present, giving
`Data.gdb` again), and its fourth candidate lowercases the whole base name
(`data.gdb`), whereas the claim calls for the extension forced to uppercase
(`Data.GDB`) and then to lowercase (`Data.gdb`).  With every probe failing,
the attempted-path list of the resolver differs from the claimed candidate
list. -/
theorem c9_probe_order_differs_from_claim :
    (formatGDALPath wFail "/tmp/u" "Data.gdb.zip").attempted ≠
      specCandidates "/tmp/u" "Data.gdb.zip" := by
  decide

/-- Ordered-fallback shape of the resolver: on archive names it equals the
generic first-success probe over the code's candidate list, with the
method-2 path as the all-fail fallback. -/
theorem formatGDALPath_eq_probeFirst (w : World) (fp on2 : String)
    (hz : strEndsWith (strToLower on2) ".zip" = true) :
    formatGDALPath w fp on2 =
      probeFirst w (("/vsizip/" ++ fp) ++ "/" ++ basenameNoZip on2)
        (codeCandidates fp on2) := by
  simp only [formatGDALPath, codeCandidates, hz, if_true]
  generalize (basenameNoZip on2 : String) = base
  generalize ("/vsizip/" ++ fp : String) = A
  generalize (A ++ "/" ++
    (if strEndsWith (strToUpper base) ".GDB" = true then base
      else base ++ ".GDB") : String) = C
  generalize (A ++ "/" ++
    (if strEndsWith (strToLower base) ".gdb" = true then strToLower base
      else strToLower base ++ ".gdb") : String) = D
  generalize (A ++ "/" ++ base : String) = B
  by_cases h1 : opensOk w A = true <;> by_cases h2 : opensOk w B = true <;>
    by_cases h3 : opensOk w C = true <;> by_cases h4 : opensOk w D = true <;>
    simp [probeFirst, h1, h2, h3, h4]

/-- Every probe the resolver opened successfully was closed again: the
closed list equals the attempted list filtered by open success. -/
theorem formatGDALPath_closed_filter (w : World) (fp on2 : String) :
    (formatGDALPath w fp on2).closed =
      (formatGDALPath w fp on2).attempted.filter (fun q => opensOk w q) := by
  by_cases hz : strEndsWith (strToLower on2) ".zip" = true
  · simp only [formatGDALPath, hz, if_true]
    generalize (basenameNoZip on2 : String) = base
    generalize ("/vsizip/" ++ fp : String) = A
    generalize (A ++ "/" ++
      (if strEndsWith (strToUpper base) ".GDB" = true then base
        else base ++ ".GDB") : String) = C
    generalize (A ++ "/" ++
      (if strEndsWith (strToLower base) ".gdb" = true then strToLower base
        else strToLower base ++ ".gdb") : String) = D
    generalize (A ++ "/" ++ base : String) = B
    by_cases h1 : opensOk w A = true <;> by_cases h2 : opensOk w B = true <;>
      by_cases h3 : opensOk w C = true <;>
      by_cases h4 : opensOk w D = true <;>
      simp [h1, h2, h3, h4, List.filter]
  · simp [formatGDALPath, hz]

/-- C9, amended.  For archive uploads the resolver probes, in order: the
virtual-archive root; the root joined with the archive's base name
verbatim; the base name with `.GDB` appended unless it already ends
case-insensitively in `.gdb` (the existing extension's case is left
unchanged); and the whole base name lowercased with `.gdb` appended if
missing.  The first candidate that opens wins, every successfully opened
probe dataset is closed (the closed list is the attempted list filtered by
open success), a non-archive filename passes through unchanged with no
probe, and when every probe fails the method-2 path (root plus base name)
is returned as the fallback. -/
theorem c9_resolver_ordered_probes (w : World) (fp on2 : String) :
    (strEndsWith (strToLower on2) ".zip" = false →
      formatGDALPath w fp on2 =
        { path := fp, attempted := [], closed := [] }) ∧
    (strEndsWith (strToLower on2) ".zip" = true →
      formatGDALPath w fp on2 =
        probeFirst w (("/vsizip/" ++ fp) ++ "/" ++ basenameNoZip on2)
          (codeCandidates fp on2)) ∧
    (formatGDALPath w fp on2).closed =
      (formatGDALPath w fp on2).attempted.filter (fun q => opensOk w q) := by
  refine ⟨?_, fun hz => formatGDALPath_eq_probeFirst w fp on2 hz,
    formatGDALPath_closed_filter w fp on2⟩
  intro h
  simp [formatGDALPath, h]

/-- A world in which only the resolver's third candidate for
`/tmp/u` + `UMN.zip` opens. -/
def wProbe : World :=
  { openResult := fun p =>
      if p = ("/vsizip/" ++ "/tmp/u") ++ "/" ++ "UMN.GDB" then .ok dsBare
      else .error "no",
    setupOk := fun _ => false,
    transformGeom := fun _ => none,
    wkbGeometryType := fun _ => none }

/-- Witness for C9 at a concrete archive upload whose third probe opens. -/
theorem c9_resolver_ordered_probes_witness :
    (formatGDALPath wProbe "/tmp/u" "UMN.zip" =
      probeFirst wProbe
        (("/vsizip/" ++ "/tmp/u") ++ "/" ++ basenameNoZip "UMN.zip")
        (codeCandidates "/tmp/u" "UMN.zip")) ∧
    (formatGDALPath wProbe "/tmp/u" "UMN.zip").closed =
      (formatGDALPath wProbe "/tmp/u" "UMN.zip").attempted.filter
        (fun q => opensOk wProbe q) :=
  ⟨(c9_resolver_ordered_probes wProbe "/tmp/u" "UMN.zip").2.1 (by decide),
   (c9_resolver_ordered_probes wProbe "/tmp/u" "UMN.zip").2.2⟩

end GdalServer
